import Mathlib

/-!
Shallow embedding of the `knuckles-parse` PDB parser (crate `knuckles-parse`;
the `mtrixn`, `origxn` and `seqadv` codec files are shared with the
repository's root crate under `src/records/`).

Modelling conventions:
* A Rust `&str` is modelled as a list of characters (`Str`); all inputs of
  interest are ASCII, so byte indices and char indices coincide.
* A Rust panic (out-of-bounds slice `str[a..b]`, `unwrap()` of a failed
  parse, an explicit panic in `DBType::new` / the `MtrixN`-family
  constructors) is modelled as `none` in an `Option` wrapped around the
  computation.  Because every mandatory slice of a codec has a fixed upper
  bound, the conjunction of that codec's slice bound checks is a single
  length test, written as one guard `if s.length < N then none` where `N`
  is the largest mandatory index used by the codec.  The `unwrap()`ed
  parses are the surrounding `match ... | _ => none`.
* A recoverable `Result::Err` (produced only by `Record::try_from`) is
  modelled with `Except String`; so `Record.tryFrom : Str →
  Option (Except String Record)`: `none` means a codec panicked,
  `some (.error e)` means the dispatcher returned `Err(e)`.
* Rust `f32` fields are modelled as exact rationals (`ℚ`): the decimal
  grammar accepted by `f32::from_str` is parsed exactly.  `inf`/`NaN`
  forms have no rational counterpart and are treated as unparseable; no
  claim depends on them or on `f32` rounding.
* Machine integers (`u32`, `i16`, `i32`) are modelled as `Nat`/`Int` with
  the source's range checks explicit (an out-of-range literal makes
  Rust's `parse` return `Err`, which the model mirrors).
-/

abbrev Str := List Char

/-- ASCII whitespace test matching `char::is_whitespace` on the characters
that occur in PDB files. -/
def isWS (c : Char) : Bool := c = ' ' || c = '\t' || c = '\n' || c = '\r'

/-- `str::trim` on ASCII text: drop whitespace from both ends. -/
def trimStr (s : Str) : Str :=
  ((s.dropWhile isWS).reverse.dropWhile isWS).reverse

/-- The char range `[a, b)` of `s`; used for Rust slices `str[a..b]` whose
bounds have already been established by the codec's length guard. -/
def seg (s : Str) (a b : Nat) : Str := (s.drop a).take (b - a)

/-- Rust's checked `str.get(a..b)` on ASCII text: `some` exactly when the
range is in bounds. -/
def slice? (s : Str) (a b : Nat) : Option Str :=
  if a ≤ b ∧ b ≤ s.length then some ((s.drop a).take (b - a)) else none

/-- `char::to_digit(radix)`. -/
def digitVal? (radix : Nat) (c : Char) : Option Nat :=
  let v : Option Nat :=
    if '0' ≤ c ∧ c ≤ '9' then some (c.toNat - 48)
    else if 'a' ≤ c ∧ c ≤ 'z' then some (c.toNat - 87)
    else if 'A' ≤ c ∧ c ≤ 'Z' then some (c.toNat - 55)
    else none
  match v with
  | some n => if n < radix then some n else none
  | none => none

/-- Digits-only accumulation for `from_str_radix`: fails on an empty string
or any non-digit. -/
def natFromDigits? (radix : Nat) (s : Str) : Option Nat :=
  if s.isEmpty then none
  else s.foldl (fun acc c => acc.bind fun a => (digitVal? radix c).map fun d => a * radix + d)
    (some 0)

/-- `u32::MAX + 1`. -/
def u32Bound : Nat := 4294967296

/-- `u32::from_str_radix` / `str::parse::<u32>` (at radix 10): optional `+`
sign, then at least one digit, with the overflow check. -/
def uintFromRadix? (radix bound : Nat) (s : Str) : Option Nat :=
  let s' := match s with
    | '+' :: rest => rest
    | rest => rest
  match natFromDigits? radix s' with
  | some n => if n < bound then some n else none
  | none => none

/-- `str::parse` for a signed integer type with range `[lo, hi]`: optional
sign, then at least one decimal digit, with the overflow check. -/
def intFromStr? (lo hi : Int) (s : Str) : Option Int :=
  let sc : Int × Str := match s with
    | '-' :: rest => (-1, rest)
    | '+' :: rest => (1, rest)
    | rest => (1, rest)
  match natFromDigits? 10 sc.2 with
  | some n =>
      let v : Int := sc.1 * n
      if lo ≤ v ∧ v ≤ hi then some v else none
  | none => none

/-- `str::parse::<char>`: succeeds exactly on one-character strings. -/
def parseChar? (s : Str) : Option Char :=
  match s with
  | [c] => some c
  | _ => none

def isDigitC (c : Char) : Bool := '0' ≤ c ∧ c ≤ '9'

/-- Value of a digit run (applied only to strings of decimal digits). -/
def digitsVal (s : Str) : Nat :=
  s.foldl (fun a c => a * 10 + (c.toNat - 48)) 0

/-- `str::parse::<f32>` modelled exactly over ℚ: optional sign, a mantissa
of digits with an optional point (at least one digit overall), and an
optional `e`/`E` exponent with its own optional sign and at least one
digit.  `inf`/`NaN` forms are not representable in ℚ and are treated as
failures; no parsed PDB field uses them. -/
def floatFromStr? (s : Str) : Option ℚ :=
  let sc : Int × Str := match s with
    | '-' :: rest => (-1, rest)
    | '+' :: rest => (1, rest)
    | rest => (1, rest)
  let intPart := sc.2.takeWhile isDigitC
  let r1 := sc.2.dropWhile isDigitC
  let fr : Str × Str := match r1 with
    | '.' :: rest => (rest.takeWhile isDigitC, rest.dropWhile isDigitC)
    | rest => ([], rest)
  if intPart.isEmpty ∧ fr.1.isEmpty then none
  else
    -- the mantissa is (digits of intPart ++ digits of the fraction) over
    -- 10 ^ (fraction length); built with `mkRat` over ℤ/ℕ arithmetic
    let digits : Nat := digitsVal intPart * 10 ^ fr.1.length + digitsVal fr.1
    match fr.2 with
    | [] => some (mkRat (sc.1 * digits) (10 ^ fr.1.length))
    | e :: rest =>
        if e = 'e' ∨ e = 'E' then
          let es : Int × Str := match rest with
            | '-' :: r => (-1, r)
            | '+' :: r => (1, r)
            | r => (1, r)
          if es.2.isEmpty ∨ es.2.any (fun c => !isDigitC c) then none
          else
            let ex : Int := es.1 * (digitsVal es.2 : Int)
            if 0 ≤ ex then
              some (mkRat (sc.1 * digits * (10 : Int) ^ ex.toNat) (10 ^ fr.1.length))
            else
              some (mkRat (sc.1 * digits) (10 ^ fr.1.length * 10 ^ (-ex).toNat))
        else none

/-- The serial-field decode of `AtomRecord::new`: trim the raw `[6,11)`
slice, pick radix 16 when any ASCII-alphabetic character is present
(radix 10 otherwise), and fall back to `u32::default()` = 0 via
`unwrap_or_default`. -/
def decodeSerial (raw : Str) : Nat :=
  let t := trimStr raw
  let radix := if t.any Char.isAlpha then 16 else 10
  (uintFromRadix? radix u32Bound t).getD 0

/-- `records::atom::AtomRecord` (shared by the `Atom` and `Hetatm`
variants). -/
structure AtomRecord where
  serial : Nat
  name : Str
  alt_loc : Option Char
  res_name : Str
  chain_id : Option Char
  res_seq : Int
  i_code : Option Char
  x : ℚ
  y : ℚ
  z : ℚ
  occupancy : ℚ
  temp_factor : ℚ
  element : Option Str
  charge : Option Str
  entry : Option Str
deriving DecidableEq, Repr

/-- `AtomRecord::new`.  Mandatory slices end at index 66 at the latest, so
the guard `s.length < 66` is the conjunction of their bound checks; the
`unwrap()`ed parses are the `match`; `entry`/`element`/`charge` use
bounds-checked `str.get` with `filter(|t| !t.is_empty())`. -/
def AtomRecord.new (s : Str) : Option AtomRecord :=
  if s.length < 66 then none else
  match intFromStr? (-32768) 32767 (trimStr (seg s 22 26)),
      floatFromStr? (trimStr (seg s 30 38)), floatFromStr? (trimStr (seg s 38 46)),
      floatFromStr? (trimStr (seg s 46 54)), floatFromStr? (trimStr (seg s 54 60)),
      floatFromStr? (trimStr (seg s 60 66)) with
  | some res_seq, some x, some y, some z, some occupancy, some temp_factor =>
      some {
        serial := decodeSerial (seg s 6 11)
        name := trimStr (seg s 12 16)
        alt_loc := parseChar? (trimStr (seg s 16 17))
        res_name := trimStr (seg s 17 20)
        chain_id := parseChar? (trimStr (seg s 21 22))
        res_seq := res_seq
        i_code := parseChar? (trimStr (seg s 26 27))
        x := x, y := y, z := z
        occupancy := occupancy
        temp_factor := temp_factor
        entry := ((slice? s 72 76).map trimStr).filter (fun t => !t.isEmpty)
        element := ((slice? s 77 80).map trimStr).filter (fun t => !t.isEmpty)
        charge := ((slice? s 78 80).map trimStr).filter (fun t => !t.isEmpty) }
  | _, _, _, _, _, _ => none

/-- `records::anisotropic::AnisotropicRecord`. -/
structure AnisotropicRecord where
  serial : Nat
  name : Str
  alt_loc : Option Char
  res_name : Str
  chain_id : Char
  res_seq : Int
  i_code : Option Char
  u00 : Int
  u11 : Int
  u22 : Int
  u01 : Int
  u02 : Int
  u12 : Int
  element : Option Str
  charge : Option Str
deriving DecidableEq, Repr

/-- `AnisotropicRecord::new`: mandatory slices end at 70; `chain_id` and
the six anisotropy integers are `unwrap()`ed. -/
def AnisotropicRecord.new (s : Str) : Option AnisotropicRecord :=
  if s.length < 70 then none else
  match parseChar? (trimStr (seg s 21 22)),
      intFromStr? (-32768) 32767 (trimStr (seg s 22 26)),
      intFromStr? (-2147483648) 2147483647 (trimStr (seg s 28 35)),
      intFromStr? (-2147483648) 2147483647 (trimStr (seg s 35 42)),
      intFromStr? (-2147483648) 2147483647 (trimStr (seg s 42 49)),
      intFromStr? (-2147483648) 2147483647 (trimStr (seg s 49 56)),
      intFromStr? (-2147483648) 2147483647 (trimStr (seg s 56 63)),
      intFromStr? (-2147483648) 2147483647 (trimStr (seg s 63 70)) with
  | some chain_id, some res_seq, some u00, some u11, some u22, some u01, some u02, some u12 =>
      some {
        serial := (uintFromRadix? 10 u32Bound (trimStr (seg s 6 11))).getD 0
        name := trimStr (seg s 12 16)
        alt_loc := parseChar? (trimStr (seg s 16 17))
        res_name := trimStr (seg s 17 20)
        chain_id := chain_id
        res_seq := res_seq
        i_code := parseChar? (trimStr (seg s 26 27))
        u00 := u00, u11 := u11, u22 := u22, u01 := u01, u02 := u02, u12 := u12
        element := ((slice? s 76 78).map trimStr).filter (fun t => !t.isEmpty)
        charge := ((slice? s 78 80).map trimStr).filter (fun t => !t.isEmpty) }
  | _, _, _, _, _, _, _, _ => none

/-- `records::connect::ConnectRecord`; `connected` holds the four 5-byte
slots (always length 4). -/
structure ConnectRecord where
  serial : Nat
  connected : List (Option Nat)
deriving DecidableEq, Repr

/-- `ConnectRecord::new`: mandatory slices end at 31; the serial defaults
to 0, the four slots use `.ok()`. -/
def ConnectRecord.new (s : Str) : Option ConnectRecord :=
  if s.length < 31 then none else
  some {
    serial := (uintFromRadix? 10 u32Bound (trimStr (seg s 6 11))).getD 0
    connected := [
      uintFromRadix? 10 u32Bound (trimStr (seg s 11 16)),
      uintFromRadix? 10 u32Bound (trimStr (seg s 16 21)),
      uintFromRadix? 10 u32Bound (trimStr (seg s 21 26)),
      uintFromRadix? 10 u32Bound (trimStr (seg s 26 31))] }

/-- `records::crystal::CrystalRecord`. -/
structure CrystalRecord where
  a : ℚ
  b : ℚ
  c : ℚ
  alpha : ℚ
  beta : ℚ
  gamma : ℚ
  space_group : Str
  z : Nat
deriving DecidableEq, Repr

/-- `CrystalRecord::new`: mandatory slices end at 70; every numeric field
uses `unwrap_or_default`, so only the slices can panic. -/
def CrystalRecord.new (s : Str) : Option CrystalRecord :=
  if s.length < 70 then none else
  some {
    a := (floatFromStr? (trimStr (seg s 6 15))).getD 0
    b := (floatFromStr? (trimStr (seg s 15 24))).getD 0
    c := (floatFromStr? (trimStr (seg s 24 33))).getD 0
    alpha := (floatFromStr? (trimStr (seg s 33 40))).getD 0
    beta := (floatFromStr? (trimStr (seg s 40 47))).getD 0
    gamma := (floatFromStr? (trimStr (seg s 47 54))).getD 0
    space_group := trimStr (seg s 55 66)
    z := (uintFromRadix? 10 u32Bound (trimStr (seg s 66 70))).getD 0 }

/-- `records::dbref::DBType`. -/
inductive DBType where
  | GB
  | NORINE
  | PDB
  | UNP
deriving DecidableEq, Repr

/-- `DBType::new`: trims, matches the fixed vocabulary (with alias
`"NOR"`), and panics (`none`) on anything else. -/
def DBType.new? (s : Str) : Option DBType :=
  let t := trimStr s
  if t = "GB".data then some DBType.GB
  else if t = "NORINE".data ∨ t = "NOR".data then some DBType.NORINE
  else if t = "PDB".data then some DBType.PDB
  else if t = "UNP".data then some DBType.UNP
  else none

/-- `records::dbref::DBRefRecord`. -/
structure DBRefRecord where
  id_code : Str
  chain_id : Char
  seq_begin : Nat
  insert_begin : Option Char
  seq_end : Nat
  insert_end : Option Char
  database : DBType
  db_accession : Str
  db_id_code : Str
  db_seq_begin : Nat
  i_dbns_beg : Option Char
  db_seq_end : Nat
  db_ins_end : Option Char
deriving DecidableEq, Repr

/-- The conditional `i_dbns_beg`/`db_ins_end` pair of `DBRefRecord::new`:
`chars().nth(60).unwrap()` and `chars().nth(67).unwrap()` are evaluated
only when the database kind is PDB; otherwise both stay `None`. -/
def dbrefExtra? (s : Str) (database : DBType) : Option (Option Char × Option Char) :=
  if database = DBType.PDB then
    match s.get? 60, s.get? 67 with
    | some c1, some c2 => some (some c1, some c2)
    | _, _ => none
  else some ((none : Option Char), (none : Option Char))

/-- `DBRefRecord::new`: mandatory slices end at 67; `chars().nth(12)` is
covered by the guard while `nth(60)`/`nth(67)` (only reached when the
database kind is PDB) keep their own bound checks, via `dbrefExtra?`. -/
def DBRefRecord.new (s : Str) : Option DBRefRecord :=
  if s.length < 67 then none else
  match DBType.new? (seg s 26 32) with
  | none => none
  | some database =>
    match dbrefExtra? s database, s.get? 12,
        uintFromRadix? 10 u32Bound (trimStr (seg s 14 18)),
        uintFromRadix? 10 u32Bound (trimStr (seg s 20 24)),
        uintFromRadix? 10 u32Bound (trimStr (seg s 55 60)),
        uintFromRadix? 10 u32Bound (trimStr (seg s 62 67)) with
    | some extra, some chain_id, some seq_begin, some seq_end, some db_seq_begin, some db_seq_end =>
        some {
          id_code := trimStr (seg s 7 11)
          chain_id := chain_id
          seq_begin := seq_begin
          insert_begin := parseChar? (trimStr (seg s 18 19))
          seq_end := seq_end
          insert_end := parseChar? (trimStr (seg s 24 25))
          database := database
          db_accession := trimStr (seg s 33 41)
          db_id_code := trimStr (seg s 42 54)
          db_seq_begin := db_seq_begin
          i_dbns_beg := extra.1
          db_seq_end := db_seq_end
          db_ins_end := extra.2 }
    | _, _, _, _, _, _ => none

/-- `records::het::HetRecord`. -/
structure HetRecord where
  het_id : Str
  chain_id : Char
  seq_num : Int
  i_code : Option Char
  num_het_atoms : Int
  text : Option Str
deriving DecidableEq, Repr

/-- `HetRecord::new`: mandatory slices end at 26 (covering `nth(12)`). -/
def HetRecord.new (s : Str) : Option HetRecord :=
  if s.length < 26 then none else
  match s.get? 12,
      intFromStr? (-2147483648) 2147483647 (trimStr (seg s 13 17)),
      intFromStr? (-2147483648) 2147483647 (trimStr (seg s 21 26)) with
  | some chain_id, some seq_num, some num_het_atoms =>
      some {
        het_id := trimStr (seg s 7 10)
        chain_id := chain_id
        seq_num := seq_num
        i_code := parseChar? (trimStr (seg s 17 18))
        num_het_atoms := num_het_atoms
        text := ((slice? s 31 71).map trimStr).filter (fun t => !t.isEmpty) }
  | _, _, _ => none

/-- `records::hetnam::HetnamRecord`. -/
structure HetnamRecord where
  continuation : Option Str
  het_id : Str
  text : Str
deriving DecidableEq, Repr

/-- `HetnamRecord::new`: the mandatory slices `[11,15)` and `line[15..]`
need length at least 15; `continuation` uses checked `get(8..10)`. -/
def HetnamRecord.new (s : Str) : Option HetnamRecord :=
  if s.length < 15 then none else
  some {
    continuation := ((slice? s 8 10).map trimStr).filter (fun t => !t.isEmpty)
    het_id := trimStr (seg s 11 15)
    text := trimStr (s.drop 15) }

/-- `records::model::ModelRecord`. -/
structure ModelRecord where
  serial : Nat
deriving DecidableEq, Repr

/-- `ModelRecord::new`: slice `[10,14)` with `unwrap_or_default`. -/
def ModelRecord.new (s : Str) : Option ModelRecord :=
  if s.length < 14 then none else
  some { serial := (uintFromRadix? 10 u32Bound (trimStr (seg s 10 14))).getD 0 }

/-- `records::modres::ModresRecord`. -/
structure ModresRecord where
  id_code : Str
  res_name : Str
  chain_id : Char
  seq_num : Int
  i_code : Option Char
  std_res_name : Str
  comment : Str
deriving DecidableEq, Repr

/-- `ModresRecord::from`: mandatory slices end at 29 (`line[29..]`),
covering `nth(16)`; `seq_num` is an `unwrap()`ed `i16`. -/
def ModresRecord.new (s : Str) : Option ModresRecord :=
  if s.length < 29 then none else
  match s.get? 16, intFromStr? (-32768) 32767 (trimStr (seg s 18 22)) with
  | some chain_id, some seq_num =>
      some {
        id_code := trimStr (seg s 7 11)
        res_name := trimStr (seg s 12 15)
        chain_id := chain_id
        seq_num := seq_num
        i_code := parseChar? (trimStr (seg s 22 23))
        std_res_name := trimStr (seg s 24 27)
        comment := trimStr (s.drop 29) }
  | _, _ => none

/-- `records::mtrixn::MtrixnRecord` (file shared with the root crate). -/
structure MtrixnRecord where
  n : Nat
  serial_number : Nat
  matrix : List ℚ
  vn : ℚ
  i_given : Bool
deriving DecidableEq, Repr

/-- `MtrixnRecord::from`: mandatory indices reach `nth(59)`, so length 60
is required; the serial, the three matrix entries and `vn` are
`unwrap()`ed.  `n` is the character at index 5 minus 48. -/
def MtrixnRecord.fromLine (s : Str) : Option MtrixnRecord :=
  if s.length < 60 then none else
  match s.get? 5, s.get? 59,
      uintFromRadix? 10 u32Bound (trimStr (seg s 7 10)),
      floatFromStr? (trimStr (seg s 10 20)),
      floatFromStr? (trimStr (seg s 20 30)),
      floatFromStr? (trimStr (seg s 30 40)),
      floatFromStr? (trimStr (seg s 45 55)) with
  | some c5, some c59, some serial_number, some m1, some m2, some m3, some vn =>
      some {
        n := c5.toNat - 48
        serial_number := serial_number
        matrix := [m1, m2, m3]
        vn := vn
        i_given := c59 = '1' }
  | _, _, _, _, _, _, _ => none

/-- `records::mtrixn::MtrixN`. -/
inductive MtrixN where
  | Mtrix1 (r : MtrixnRecord)
  | Mtrix2 (r : MtrixnRecord)
  | Mtrix3 (r : MtrixnRecord)
deriving DecidableEq, Repr

/-- `MtrixN::new`: panic on a sub-number outside {1, 2, 3}. -/
def MtrixN.new (s : Str) : Option MtrixN :=
  match MtrixnRecord.fromLine s with
  | none => none
  | some record =>
      if record.n = 1 then some (MtrixN.Mtrix1 record)
      else if record.n = 2 then some (MtrixN.Mtrix2 record)
      else if record.n = 3 then some (MtrixN.Mtrix3 record)
      else none

/-- `records::nummdl::NummdlRecord`. -/
structure NummdlRecord where
  count : Nat
deriving DecidableEq, Repr

/-- `NummdlRecord::new`: slice `[10,14)` with `unwrap_or_default`. -/
def NummdlRecord.new (s : Str) : Option NummdlRecord :=
  if s.length < 14 then none else
  some { count := (uintFromRadix? 10 u32Bound (trimStr (seg s 10 14))).getD 0 }

/-- `records::origxn::OrigxnRecord` (file shared with the root crate). -/
structure OrigxnRecord where
  n : Nat
  origxn : List ℚ
  tn : ℚ
deriving DecidableEq, Repr

/-- `OrigxnRecord::new`: slices end at 55, `nth(5)` is covered; the floats
use `unwrap_or_default`. -/
def OrigxnRecord.new (s : Str) : Option OrigxnRecord :=
  if s.length < 55 then none else
  match s.get? 5 with
  | some c5 =>
      some {
        n := c5.toNat - 48
        origxn := [
          (floatFromStr? (trimStr (seg s 10 20))).getD 0,
          (floatFromStr? (trimStr (seg s 20 30))).getD 0,
          (floatFromStr? (trimStr (seg s 30 40))).getD 0]
        tn := (floatFromStr? (trimStr (seg s 45 55))).getD 0 }
  | none => none

/-- `records::origxn::OrigxN`. -/
inductive OrigxN where
  | Origx1 (r : OrigxnRecord)
  | Origx2 (r : OrigxnRecord)
  | Origx3 (r : OrigxnRecord)
deriving DecidableEq, Repr

/-- `OrigxN::new`: panic on a sub-number outside {1, 2, 3}. -/
def OrigxN.new (s : Str) : Option OrigxN :=
  match OrigxnRecord.new s with
  | none => none
  | some record =>
      if record.n = 1 then some (OrigxN.Origx1 record)
      else if record.n = 2 then some (OrigxN.Origx2 record)
      else if record.n = 3 then some (OrigxN.Origx3 record)
      else none

/-- `records::scalen::ScalenRecord`. -/
structure ScalenRecord where
  n : Nat
  scalen : List ℚ
  un : ℚ
deriving DecidableEq, Repr

/-- `ScalenRecord::new`: slices end at 55, `nth(5)` is covered; the floats
use `unwrap_or_default`. -/
def ScalenRecord.new (s : Str) : Option ScalenRecord :=
  if s.length < 55 then none else
  match s.get? 5 with
  | some c5 =>
      some {
        n := c5.toNat - 48
        scalen := [
          (floatFromStr? (trimStr (seg s 10 20))).getD 0,
          (floatFromStr? (trimStr (seg s 20 30))).getD 0,
          (floatFromStr? (trimStr (seg s 30 40))).getD 0]
        un := (floatFromStr? (trimStr (seg s 45 55))).getD 0 }
  | none => none

/-- `records::scalen::ScaleN`. -/
inductive ScaleN where
  | Scale1 (r : ScalenRecord)
  | Scale2 (r : ScalenRecord)
  | Scale3 (r : ScalenRecord)
deriving DecidableEq, Repr

/-- `ScaleN::new`: panic on a sub-number outside {1, 2, 3}. -/
def ScaleN.new (s : Str) : Option ScaleN :=
  match ScalenRecord.new s with
  | none => none
  | some record =>
      if record.n = 1 then some (ScaleN.Scale1 record)
      else if record.n = 2 then some (ScaleN.Scale2 record)
      else if record.n = 3 then some (ScaleN.Scale3 record)
      else none

/-- Structural splitter for `split_whitespace`: words are maximal runs of
non-whitespace, with no empty tokens. -/
def splitWsAux : Str → Str → List Str
  | [], acc => if acc.isEmpty then [] else [acc.reverse]
  | c :: rest, acc =>
      if isWS c then
        if acc.isEmpty then splitWsAux rest [] else acc.reverse :: splitWsAux rest []
      else splitWsAux rest (c :: acc)

/-- `str::split_whitespace` collected into a list. -/
def splitWs (s : Str) : List Str := splitWsAux s []

/-- `records::seqres::SeqresRecord`. -/
structure SeqresRecord where
  ser_num : Nat
  chain_id : Char
  num_res : Int
  res_names : List Str
deriving DecidableEq, Repr

/-- `SeqresRecord::new`: mandatory slices end at 19 (`str[19..]`),
covering `nth(11)`; `ser_num` and `num_res` are `unwrap()`ed. -/
def SeqresRecord.new (s : Str) : Option SeqresRecord :=
  if s.length < 19 then none else
  match s.get? 11,
      uintFromRadix? 10 u32Bound (trimStr (seg s 7 10)),
      intFromStr? (-32768) 32767 (trimStr (seg s 13 17)) with
  | some chain_id, some ser_num, some num_res =>
      some {
        ser_num := ser_num
        chain_id := chain_id
        num_res := num_res
        res_names := splitWs (s.drop 19) }
  | _, _, _ => none

/-- `records::seqadv::SeqAdvRecord` (file shared with the root crate). -/
structure SeqAdvRecord where
  id_code : Str
  res_name : Str
  chain_id : Char
  seq_num : Int
  i_code : Option Char
  database : DBType
  db_accession : Str
  db_res : Option Str
  db_seq : Option Int
  conflict : Str
deriving DecidableEq, Repr

/-- `SeqAdvRecord::new`: mandatory slices end at 49 (`line[49..]`),
covering `nth(16)` and the database slice `[24,28)`; `seq_num` is an
`unwrap()`ed `i32`, `db_seq` uses `.ok()`, `db_res` uses checked
`get(39..42)`. -/
def SeqAdvRecord.new (s : Str) : Option SeqAdvRecord :=
  if s.length < 49 then none else
  match DBType.new? (seg s 24 28), s.get? 16,
      intFromStr? (-2147483648) 2147483647 (trimStr (seg s 18 22)) with
  | some database, some chain_id, some seq_num =>
      some {
        id_code := trimStr (seg s 7 11)
        res_name := trimStr (seg s 12 15)
        chain_id := chain_id
        seq_num := seq_num
        i_code := parseChar? (trimStr (seg s 22 23))
        database := database
        db_accession := trimStr (seg s 29 38)
        db_res := ((slice? s 39 42).map trimStr).filter (fun t => !t.isEmpty)
        db_seq := (intFromStr? (-2147483648) 2147483647 (trimStr (seg s 43 48)))
        conflict := trimStr (s.drop 49) }
  | _, _, _ => none

/-- `records::term::TermRecord`. -/
structure TermRecord where
  serial : Nat
  res_name : Str
  chain_id : Char
  res_seq : Int
  i_code : Option Char
deriving DecidableEq, Repr

/-- `TermRecord::new`: mandatory slices end at 26; every parse uses
`unwrap_or_default` (the `char` default is `'\0'`), and `i_code` uses
checked `get(26..27)` filtered against a space. -/
def TermRecord.new (s : Str) : Option TermRecord :=
  if s.length < 26 then none else
  some {
    serial := (uintFromRadix? 10 u32Bound (trimStr (seg s 6 11))).getD 0
    res_name := trimStr (seg s 17 20)
    chain_id := (parseChar? (seg s 21 22)).getD (Char.ofNat 0)
    res_seq := (intFromStr? (-32768) 32767 (trimStr (seg s 22 26))).getD 0
    i_code := ((slice? s 26 27).map (fun t => (parseChar? t).getD (Char.ofNat 0))).filter
      (fun c => c != ' ') }

/-- `records::Record`, the closed union of the crate's record kinds. -/
inductive Record where
  | anisou (r : AnisotropicRecord)
  | atom (r : AtomRecord)
  | connect (r : ConnectRecord)
  | crystal (r : CrystalRecord)
  | dbref (r : DBRefRecord)
  | het (r : HetRecord)
  | hetatm (r : AtomRecord)
  | hetnam (r : HetnamRecord)
  | nummdl (r : NummdlRecord)
  | mtrixN (r : MtrixN)
  | model (r : ModelRecord)
  | modres (r : ModresRecord)
  | origxN (r : OrigxN)
  | scaleN (r : ScaleN)
  | seqres (r : SeqresRecord)
  | seqadv (r : SeqAdvRecord)
  | term (r : TermRecord)
  | endmdl
deriving DecidableEq, Repr

/-- `Record::try_from(&str)`: look at `line.get(0..6)`; a missing range is
`Err("Unable to parse line")`, an unmatched tag is `Err("Unknown record
type")`, and a matched tag invokes the codec (whose panic propagates as
the outer `none`).  The tag list is exactly the source's `match`: note
that no arm dispatches `"SEQADV"`. -/
def Record.tryFrom (line : Str) : Option (Except String Record) :=
  match slice? line 0 6 with
  | none => some (Except.error "Unable to parse line")
  | some tag =>
      if tag = "ANISOU".data then (AnisotropicRecord.new line).map (fun r => Except.ok (Record.anisou r))
      else if tag = "ATOM  ".data then (AtomRecord.new line).map (fun r => Except.ok (Record.atom r))
      else if tag = "CONECT".data then (ConnectRecord.new line).map (fun r => Except.ok (Record.connect r))
      else if tag = "CRYST1".data then (CrystalRecord.new line).map (fun r => Except.ok (Record.crystal r))
      else if tag = "DBREF ".data then (DBRefRecord.new line).map (fun r => Except.ok (Record.dbref r))
      else if tag = "ENDMDL".data then some (Except.ok Record.endmdl)
      else if tag = "HETATM".data then (AtomRecord.new line).map (fun r => Except.ok (Record.hetatm r))
      else if tag = "HET   ".data then (HetRecord.new line).map (fun r => Except.ok (Record.het r))
      else if tag = "HETNAM".data then (HetnamRecord.new line).map (fun r => Except.ok (Record.hetnam r))
      else if tag = "MTRIX1".data ∨ tag = "MTRIX2".data ∨ tag = "MTRIX3".data then
        (MtrixN.new line).map (fun r => Except.ok (Record.mtrixN r))
      else if tag = "MODEL ".data then (ModelRecord.new line).map (fun r => Except.ok (Record.model r))
      else if tag = "MODRES".data then (ModresRecord.new line).map (fun r => Except.ok (Record.modres r))
      else if tag = "NUMMDL".data then (NummdlRecord.new line).map (fun r => Except.ok (Record.nummdl r))
      else if tag = "ORIGX1".data ∨ tag = "ORIGX2".data ∨ tag = "ORIGX3".data then
        (OrigxN.new line).map (fun r => Except.ok (Record.origxN r))
      else if tag = "SCALE1".data ∨ tag = "SCALE2".data ∨ tag = "SCALE3".data then
        (ScaleN.new line).map (fun r => Except.ok (Record.scaleN r))
      else if tag = "SEQRES".data then (SeqresRecord.new line).map (fun r => Except.ok (Record.seqres r))
      else if tag = "TER   ".data then (TermRecord.new line).map (fun r => Except.ok (Record.term r))
      else some (Except.error "Unknown record type")

/-- Strip one trailing `'\r'` from a line accumulated in reverse. -/
def dropCRrev (accRev : Str) : Str :=
  match accRev with
  | '\r' :: a => a.reverse
  | a => a.reverse

/-- Structural worker for `str::lines`; `acc` is the current line in
reverse.  A line terminated by `'\n'` has a trailing `'\r'` stripped; the
final unterminated segment is emitted as-is when nonempty. -/
def linesAux : Str → Str → List Str
  | acc, [] => if acc.isEmpty then [] else [acc.reverse]
  | acc, '\n' :: rest => dropCRrev acc :: linesAux [] rest
  | acc, c :: rest => linesAux (c :: acc) rest

/-- `str::lines` collected into a list. -/
def linesOf (s : Str) : List Str := linesAux [] s

/-- The serial-normalization pass of `pdbreader_parallel`: one ordered
walk with a running counter (`last`, initialized to 0 by the caller); a
zero-serial `Atom` gets `last + 1`, a nonzero-serial `Atom` re-baselines
the counter, every other record passes through untouched. -/
def normalizeSerials (last : Nat) : List Record → List Record
  | [] => []
  | r :: rest =>
      match r with
      | Record.atom a =>
          if a.serial = 0 then
            Record.atom { a with serial := last + 1 } :: normalizeSerials (last + 1) rest
          else
            Record.atom a :: normalizeSerials a.serial rest
      | other => other :: normalizeSerials last rest

/-- The per-line phase of `pdbreader_parallel`: skip lines shorter than 6,
drop lines whose `Record::try_from` is an `Err`, keep decoded records in
input order; a codec panic (rayon repropagates it) aborts the whole
call. -/
def parseLines : List Str → Option (List Record)
  | [] => some []
  | l :: ls =>
      if l.length < 6 then parseLines ls
      else
        match Record.tryFrom l with
        | none => none
        | some (Except.error _) => parseLines ls
        | some (Except.ok r) => (parseLines ls).map (fun rs => r :: rs)

/-- `pdbreader_parallel`: decode all lines (order-preserving), then run
the serial-normalization pass once over the collected records. -/
def pdbreader_parallel (contents : Str) : Option (List Record) :=
  (parseLines (linesOf contents)).map (normalizeSerials 0)

/-- The fused loop of `pdbreader_single`: the same per-line decoding, but
only `Ok(Record::Atom(..))` results are kept (every other success is
discarded by the `if let`), with the serial counter threaded inline. -/
def singleLines (last : Nat) : List Str → Option (List Record)
  | [] => some []
  | l :: ls =>
      if l.length < 6 then singleLines last ls
      else
        match Record.tryFrom l with
        | none => none
        | some (Except.ok (Record.atom a)) =>
            if a.serial = 0 then
              (singleLines (last + 1) ls).map (fun rs => Record.atom { a with serial := last + 1 } :: rs)
            else
              (singleLines a.serial ls).map (fun rs => Record.atom a :: rs)
        | some _ => singleLines last ls

/-- `pdbreader_single`. -/
def pdbreader_single (contents : Str) : Option (List Record) :=
  singleLines 0 (linesOf contents)

/-! Concrete lines, taken from the crate's unit tests and doc examples. -/

/-- The ATOM test line of `records/atom.rs`. -/
def atomLine1 : Str :=
  "ATOM     17  NE2 GLN     2      25.562  32.733   1.806  1.00 19.49      1UBQ    ".data

/-- The hexadecimal-serial ATOM test line of `records/atom.rs`. -/
def atomHexLine : Str :=
  "ATOM  186a0  CA  GLY A  67      26.731  62.085   4.078  0.00  7.83           C  ".data

/-- `atomLine1` with serial field `"  123"`. -/
def atomDecLine : Str :=
  "ATOM    123  NE2 GLN     2      25.562  32.733   1.806  1.00 19.49      1UBQ    ".data

/-- The CRYST1 example line of the spec. -/
def crystLine : Str :=
  "CRYST1   52.000   58.600   61.900  90.00  90.00  90.00 P 21 21 21    8".data

/-- The first SEQADV test line of `records/seqadv.rs`. -/
def seqadvLine : Str :=
  "SEQADV 3ABC MET A   -1  UNP  P10725              EXPRESSION TAG".data

/-- The PDB-database DBREF test line of `records/dbref.rs`. -/
def dbrefPdbLine : Str :=
  "DBREF  2JHQ A    1   226  PDB    Q9KPK8   UNG_VIBCH        1A   226B".data

/-- The UNP-database DBREF test line of `records/dbref.rs`. -/
def dbrefUnpLine : Str :=
  "DBREF  2JHQ A    1   226  UNP    Q9KPK8   UNG_VIBCH        1    226".data

/-- A well-formed HETATM line whose serial field is `"    0"`. -/
def hetatm0Line : Str :=
  "HETATM    0  O   HOH A   2      15.123  12.456  30.789  1.00 25.50           O".data

/-- `atomLine1` with the mandatory `temp_factor` field corrupted to
`" XY.ZW"`: the tag is recognized but the `unwrap()`ed parse panics. -/
def badAtomLine : Str :=
  "ATOM     17  NE2 GLN     2      25.562  32.733   1.806  1.00 XY.ZW      1UBQ    ".data

/-- `badAtomLine` followed by the perfectly well-formed `atomLine1`. -/
def badThenGoodInput : Str := badAtomLine ++ '\n' :: atomLine1

/-- A too-short line and an unrecognized-tag line. -/
def junkInput : Str := "FOOB\nFOOBAR junk".data

/-- Head/counter step of the serial-normalization loop. -/
def normStep (last : Nat) (r : Record) : Record × Nat :=
  match r with
  | Record.atom a =>
      if a.serial = 0 then (Record.atom { a with serial := last + 1 }, last + 1)
      else (Record.atom a, a.serial)
  | other => (other, last)

theorem normalizeSerials_cons (last : Nat) (r : Record) (rest : List Record) :
    normalizeSerials last (r :: rest) =
      (normStep last r).1 :: normalizeSerials (normStep last r).2 rest := by
  cases r <;> simp only [normalizeSerials, normStep] <;> split <;> rfl

theorem normStep_nonatom (last : Nat) (r : Record) (h : ∀ a, r ≠ Record.atom a) :
    normStep last r = (r, last) := by
  cases r <;> simp only [normStep] <;> exact absurd rfl (h _)

theorem normStep_fst_serial (c : Nat) (r : Record) (a : AtomRecord)
    (h : (normStep c r).1 = Record.atom a) : a.serial ≠ 0 := by
  cases r <;> simp only [normStep] at h <;> try exact absurd h (by simp)
  case atom b =>
    by_cases hb : b.serial = 0
    · rw [if_pos hb] at h
      simp only [Record.atom.injEq] at h
      subst h
      simp
    · rw [if_neg hb] at h
      simp only [Record.atom.injEq] at h
      subst h
      exact hb

theorem normStep_fst_of_nonzero (c : Nat) (a : AtomRecord) (ha : a.serial ≠ 0) :
    normStep c (Record.atom a) = (Record.atom a, a.serial) := by
  simp [normStep, ha]

theorem norm_serial_ne_zero (l : List Record) : ∀ (c : Nat) (a : AtomRecord),
    Record.atom a ∈ normalizeSerials c l → a.serial ≠ 0 := by
  induction l with
  | nil => intro c a h; simp [normalizeSerials] at h
  | cons r rest ih =>
      intro c a h
      rw [normalizeSerials_cons] at h
      rcases List.mem_cons.mp h with h | h
      · exact normStep_fst_serial c r a h.symm
      · exact ih _ a h

theorem norm_get?_atom_nonzero (l : List Record) : ∀ (c i : Nat) (a : AtomRecord),
    l.get? i = some (Record.atom a) → a.serial ≠ 0 →
    (normalizeSerials c l).get? i = some (Record.atom a) := by
  induction l with
  | nil => intro c i a h _; simp at h
  | cons r rest ih =>
      intro c i a h ha
      rw [normalizeSerials_cons]
      cases i with
      | zero =>
          simp only [List.get?_cons_zero, Option.some_inj] at h
          subst h
          simp [normStep_fst_of_nonzero _ _ ha]
      | succ i =>
          simp only [List.get?_cons_succ] at h ⊢
          exact ih _ i a h ha

theorem norm_get?_nonatom (l : List Record) : ∀ (c i : Nat) (r : Record),
    l.get? i = some r → (∀ a, r ≠ Record.atom a) →
    (normalizeSerials c l).get? i = some r := by
  induction l with
  | nil => intro c i r h _; simp at h
  | cons x rest ih =>
      intro c i r h hr
      rw [normalizeSerials_cons]
      cases i with
      | zero =>
          simp only [List.get?_cons_zero, Option.some_inj] at h
          subst h
          simp [normStep_nonatom _ _ hr]
      | succ i =>
          simp only [List.get?_cons_succ] at h ⊢
          exact ih _ i r h hr

/-- Claim C1: the sequential and the concurrent driver are claimed to
return equal record sequences for every input.  The code differs: on the
single line `"ENDMDL"` the parallel driver returns the `Endmdl` record
while `pdbreader_single` (which keeps only `Record::Atom` successes)
returns the empty sequence, and the two drivers likewise disagree on a
well-formed HETATM line. -/
theorem claim_C1_divergence :
    pdbreader_parallel ("ENDMDL".data) = some [Record.endmdl] ∧
    pdbreader_single ("ENDMDL".data) = some [] ∧
    pdbreader_parallel hetatm0Line ≠ pdbreader_single hetatm0Line := by
  refine ⟨by decide, by decide, by decide⟩

/-- Claim C4: the classifier is claimed to route all 17 kinds, in
particular tag `"SEQADV"`, to their codecs.  The dispatcher of
`records/mod.rs` has no `"SEQADV"` arm: on the crate's own SEQADV test
line (which its codec `SeqAdvRecord::new` decodes successfully) the
dispatcher returns the `"Unknown record type"` failure, so the `Seqadv`
variant is unreachable from `Record::try_from`. -/
theorem claim_C4_divergence :
    Record.tryFrom seqadvLine = some (Except.error "Unknown record type") ∧
    (SeqAdvRecord.new seqadvLine).isSome = true := by
  refine ⟨by rfl, by decide⟩

/-- Claim C7: the CRYST1 codec slices a[6,15) b[15,24) c[24,33)
alpha[33,40) beta[40,47) gamma[47,54) spaceGroup[55,66) z[66,70), so the
spec's example line decodes to a=52, b=58.6, c=61.9, the three right
angles, space group "P 21 21 21" and z=8. -/
theorem claim_C7_crystal :
    CrystalRecord.new crystLine =
      some { a := mkRat 52 1, b := mkRat 293 5, c := mkRat 619 10, alpha := mkRat 90 1,
             beta := mkRat 90 1, gamma := mkRat 90 1, space_group := "P 21 21 21".data,
             z := 8 } := by
  decide

/-- Claim C3: the Serial Normalizer's ordered pass (counter starting at
0) leaves no atom-kind record with serial 0, keeps every
originally-nonzero atom serial unchanged in place, and sends atom serials
[5, 0, 0, 20, 0] to [5, 6, 7, 20, 21]. -/
theorem claim_C3_normalizer :
    (∀ (l : List Record) (a : AtomRecord),
        Record.atom a ∈ normalizeSerials 0 l → a.serial ≠ 0) ∧
    (∀ (l : List Record) (i : Nat) (a : AtomRecord),
        l.get? i = some (Record.atom a) → a.serial ≠ 0 →
        (normalizeSerials 0 l).get? i = some (Record.atom a)) ∧
    (∀ a1 a2 a3 a4 a5 : AtomRecord,
        a1.serial = 5 → a2.serial = 0 → a3.serial = 0 → a4.serial = 20 → a5.serial = 0 →
        normalizeSerials 0
            [Record.atom a1, Record.atom a2, Record.atom a3, Record.atom a4, Record.atom a5] =
          [Record.atom a1, Record.atom { a2 with serial := 6 },
           Record.atom { a3 with serial := 7 }, Record.atom a4,
           Record.atom { a5 with serial := 21 }]) := by
  refine ⟨fun l a h => norm_serial_ne_zero l 0 a h,
          fun l i a h ha => norm_get?_atom_nonzero l 0 i a h ha, ?_⟩
  intro a1 a2 a3 a4 a5 h1 h2 h3 h4 h5
  simp [normalizeSerials, h1, h2, h3, h4, h5]

/-- An all-blank atom record with the given serial, for witnesses. -/
def sampleAtom (n : Nat) : AtomRecord :=
  { serial := n, name := [], alt_loc := none, res_name := [], chain_id := none,
    res_seq := 0, i_code := none, x := 0, y := 0, z := 0, occupancy := 0,
    temp_factor := 0, element := none, charge := none, entry := none }

theorem claim_C3_normalizer_witness :
    normalizeSerials 0
        [Record.atom (sampleAtom 5), Record.atom (sampleAtom 0), Record.atom (sampleAtom 0),
         Record.atom (sampleAtom 20), Record.atom (sampleAtom 0)] =
      [Record.atom (sampleAtom 5), Record.atom { sampleAtom 0 with serial := 6 },
       Record.atom { sampleAtom 0 with serial := 7 }, Record.atom (sampleAtom 20),
       Record.atom { sampleAtom 0 with serial := 21 }] :=
  claim_C3_normalizer.2.2 (sampleAtom 5) (sampleAtom 0) (sampleAtom 0) (sampleAtom 20)
    (sampleAtom 0) rfl rfl rfl rfl rfl

/-- True exactly on a `Hetatm` record whose serial is 0. -/
def isHetatmSerialZero : Record → Bool
  | Record.hetatm a => a.serial == 0
  | _ => false

/-- Claim C9: the serial-normalization pass of `pdbreader_parallel`
rewrites only `Record::Atom` variants: any record that is not an `Atom`
is returned unchanged at its position, a non-`Atom` head leaves the
counter untouched for the rest of the pass, and a HETATM line decoded
with serial 0 still has serial 0 in the driver's output. -/
theorem claim_C9_frame :
    (∀ (c : Nat) (l : List Record) (i : Nat) (r : Record),
        l.get? i = some r → (∀ a, r ≠ Record.atom a) →
        (normalizeSerials c l).get? i = some r) ∧
    (∀ (c : Nat) (r : Record) (rest : List Record),
        (∀ a, r ≠ Record.atom a) →
        normalizeSerials c (r :: rest) = r :: normalizeSerials c rest) ∧
    ((pdbreader_parallel hetatm0Line).map (List.map isHetatmSerialZero) = some [true]) := by
  refine ⟨fun c l i r h hr => norm_get?_nonatom l c i r h hr,
          fun c r rest hr => ?_, by decide⟩
  rw [normalizeSerials_cons, normStep_nonatom c r hr]

theorem claim_C9_frame_witness :
    (normalizeSerials 7 [Record.endmdl]).get? 0 = some Record.endmdl ∧
    normalizeSerials 7 (Record.endmdl :: [Record.atom (sampleAtom 0)]) =
      Record.endmdl :: normalizeSerials 7 [Record.atom (sampleAtom 0)] :=
  ⟨claim_C9_frame.1 7 [Record.endmdl] 0 Record.endmdl rfl (fun _ h => Record.noConfusion h),
   claim_C9_frame.2.1 7 Record.endmdl [Record.atom (sampleAtom 0)]
     (fun _ h => Record.noConfusion h)⟩

theorem parseLines_panic (l : Str) (hlen : 6 ≤ l.length) (hp : Record.tryFrom l = none) :
    ∀ ls : List Str, l ∈ ls → parseLines ls = none := by
  intro ls
  induction ls with
  | nil => intro h; simp at h
  | cons x xs ih =>
      intro h
      rcases List.mem_cons.mp h with h | h
      · subst h
        simp only [parseLines]
        rw [if_neg (by omega), hp]
      · have hx := ih h
        simp only [parseLines]
        split
        · exact hx
        · cases htf : Record.tryFrom x with
          | none => rfl
          | some e =>
              cases e with
              | error m => exact hx
              | ok r => simp [hx]

theorem singleLines_panic (l : Str) (hlen : 6 ≤ l.length) (hp : Record.tryFrom l = none) :
    ∀ ls : List Str, l ∈ ls → ∀ last, singleLines last ls = none := by
  intro ls
  induction ls with
  | nil => intro h; simp at h
  | cons x xs ih =>
      intro h last
      rcases List.mem_cons.mp h with h | h
      · subst h
        simp only [singleLines]
        rw [if_neg (by omega), hp]
      · have hx := ih h
        simp only [singleLines]
        split
        · exact hx last
        · cases htf : Record.tryFrom x with
          | none => rfl
          | some e =>
              cases e with
              | error m => exact hx last
              | ok r =>
                  cases r
                  case atom a => split <;> simp [hx]
                  all_goals exact hx last

/-- Claim C2, counterexample: `badThenGoodInput` has a recognized-tag
line whose mandatory `temp_factor` field fails coercion, followed by a
perfectly well-formed ATOM line; the claim says the bad line is dropped
and parsing continues, but both top-level drivers abort (the codec's
`unwrap()` panic escapes), losing the good line as well. -/
theorem claim_C2_counterexample :
    pdbreader_parallel badThenGoodInput = none ∧
    pdbreader_single badThenGoodInput = none ∧
    (Record.tryFrom atomLine1).isSome = true := by
  refine ⟨by rfl, by rfl, by decide⟩

/-- Claim C2 as amended: a line of a recognized kind whose mandatory
field fails coercion (or whose mandatory slice is out of bounds) makes
the codec panic, and the panic escapes the top-level parse call: both
drivers abort instead of dropping the line. -/
theorem claim_C2_panic_propagates :
    ∀ (contents l : Str), l ∈ linesOf contents → 6 ≤ l.length →
      Record.tryFrom l = none →
      pdbreader_parallel contents = none ∧ pdbreader_single contents = none := by
  intro contents l hmem hlen hp
  constructor
  · unfold pdbreader_parallel
    rw [parseLines_panic l hlen hp _ hmem]
    rfl
  · exact singleLines_panic l hlen hp _ hmem 0

theorem claim_C2_panic_propagates_witness :
    pdbreader_parallel badAtomLine = none ∧ pdbreader_single badAtomLine = none :=
  claim_C2_panic_propagates badAtomLine badAtomLine (by decide) (by decide) (by rfl)

/-- Claim C5: the atom serial field is parsed in base 16 when the
trimmed raw field contains an alphabetic character and in base 10
otherwise, an unparseable field becomes 0, and on full test lines
`"186a0"` decodes to 100000 and `"  123"` to 123. -/
theorem claim_C5_serial_radix :
    ((AtomRecord.new atomHexLine).map AtomRecord.serial = some 100000) ∧
    ((AtomRecord.new atomDecLine).map AtomRecord.serial = some 123) ∧
    (∀ (raw : Str) (n : Nat), (trimStr raw).any Char.isAlpha = false →
        uintFromRadix? 10 u32Bound (trimStr raw) = some n → decodeSerial raw = n) ∧
    (∀ (raw : Str) (n : Nat), (trimStr raw).any Char.isAlpha = true →
        uintFromRadix? 16 u32Bound (trimStr raw) = some n → decodeSerial raw = n) ∧
    (∀ raw : Str,
        uintFromRadix? (if (trimStr raw).any Char.isAlpha then 16 else 10) u32Bound
            (trimStr raw) = none →
        decodeSerial raw = 0) := by
  refine ⟨by decide, by decide, ?_, ?_, ?_⟩
  · intro raw n ha h; simp [decodeSerial, ha, h]
  · intro raw n ha h; simp [decodeSerial, ha, h]
  · intro raw h
    simp only [decodeSerial]
    rw [h]
    rfl

theorem claim_C5_witness :
    decodeSerial ("  123".data) = 123 ∧ decodeSerial ("186a0".data) = 100000 ∧
    decodeSerial ("18xy0".data) = 0 :=
  ⟨claim_C5_serial_radix.2.2.1 _ 123 (by decide) (by decide),
   claim_C5_serial_radix.2.2.2.1 _ 100000 (by decide) (by decide),
   claim_C5_serial_radix.2.2.2.2 _ (by decide)⟩

theorem parseLines_drop (b : Str)
    (hb : b.length < 6 ∨ Record.tryFrom b = some (Except.error "Unknown record type")) :
    ∀ (pre post : List Str), parseLines (pre ++ b :: post) = parseLines (pre ++ post) := by
  intro pre
  induction pre with
  | nil =>
      intro post
      simp only [List.nil_append, parseLines]
      by_cases hlen : b.length < 6
      · rw [if_pos hlen]
      · rcases hb with h | h
        · exact absurd h hlen
        · rw [if_neg hlen, h]
  | cons p pre ih =>
      intro post
      simp only [List.cons_append, parseLines]
      split
      · exact ih post
      · cases htf : Record.tryFrom p with
        | none => rfl
        | some e =>
            cases e with
            | error m => exact ih post
            | ok r => simp [ih]

theorem singleLines_drop (b : Str)
    (hb : b.length < 6 ∨ Record.tryFrom b = some (Except.error "Unknown record type")) :
    ∀ (pre post : List Str) (last : Nat),
      singleLines last (pre ++ b :: post) = singleLines last (pre ++ post) := by
  intro pre
  induction pre with
  | nil =>
      intro post last
      simp only [List.nil_append, singleLines]
      by_cases hlen : b.length < 6
      · rw [if_pos hlen]
      · rcases hb with h | h
        · exact absurd h hlen
        · rw [if_neg hlen, h]
  | cons p pre ih =>
      intro post last
      simp only [List.cons_append, singleLines]
      split
      · exact ih post last
      · cases htf : Record.tryFrom p with
        | none => rfl
        | some e =>
            cases e with
            | error m => exact ih post last
            | ok r =>
                cases r
                case atom a => split <;> simp [ih]
                all_goals exact ih post last

/-- Claim C6: a line shorter than 6 characters and a line of at least 6
characters with an unrecognized tag are both dropped by each driver —
removing such a line from anywhere in the input changes nothing — and on
an input made only of such lines both top-level calls return the empty
sequence without a fatal error.  (The too-short test is the driver's
`line.len() < 6` guard, taken before `Record::try_from` is consulted.) -/
theorem claim_C6_bad_lines_dropped :
    (∀ (pre post : List Str) (b : Str),
        b.length < 6 ∨ Record.tryFrom b = some (Except.error "Unknown record type") →
        parseLines (pre ++ b :: post) = parseLines (pre ++ post) ∧
        ∀ last, singleLines last (pre ++ b :: post) = singleLines last (pre ++ post)) ∧
    pdbreader_parallel junkInput = some [] ∧ pdbreader_single junkInput = some [] := by
  refine ⟨fun pre post b hb => ⟨parseLines_drop b hb pre post,
    fun last => singleLines_drop b hb pre post last⟩, by rfl, by rfl⟩

theorem claim_C6_witness :
    parseLines ["FOOBAR junk".data, atomLine1] = parseLines [atomLine1] ∧
    singleLines 0 ["FOOBAR junk".data, atomLine1] = singleLines 0 [atomLine1] := by
  have h := claim_C6_bad_lines_dropped.1 [] [atomLine1] ("FOOBAR junk".data) (Or.inr (by rfl))
  exact ⟨h.1, h.2 0⟩

/-- Claim C8: for every successfully decoded DBREF record, the two extra
single-character insertion fields `i_dbns_beg` and `db_ins_end` are
present exactly when the record's database kind is PDB. -/
theorem dbrefExtra?_fields (s : Str) (db : DBType) (extra : Option Char × Option Char)
    (h : dbrefExtra? s db = some extra) :
    (db = DBType.PDB → extra.1.isSome = true ∧ extra.2.isSome = true) ∧
    (db ≠ DBType.PDB → extra.1 = none ∧ extra.2 = none) := by
  unfold dbrefExtra? at h
  by_cases hdb : db = DBType.PDB
  · rw [if_pos hdb] at h
    split at h
    · rename_i c1 c2 h60 h67
      obtain rfl := Option.some.inj h
      simp [hdb]
    · exact Option.noConfusion h
  · rw [if_neg hdb] at h
    obtain rfl := Option.some.inj h
    simp [hdb]

/-- Claim C8: for every successfully decoded DBREF record, the two extra
single-character insertion fields `i_dbns_beg` and `db_ins_end` are both
present (`Some`) when the record's database kind is PDB, and for every
other database kind each of the two fields is absent (`none`). -/
theorem claim_C8_dbref_conditional :
    ∀ (s : Str) (r : DBRefRecord), DBRefRecord.new s = some r →
      (r.database = DBType.PDB → r.i_dbns_beg.isSome = true ∧ r.db_ins_end.isSome = true) ∧
      (r.database ≠ DBType.PDB → r.i_dbns_beg = none ∧ r.db_ins_end = none) := by
  intro s r h
  unfold DBRefRecord.new at h
  split at h
  · exact Option.noConfusion h
  · split at h
    · exact Option.noConfusion h
    · rename_i database heqdb
      split at h
      · rename_i extra chain_id sb se dsb dse hextra h12 h14 h20 h55 h62
        simp only [Option.some.injEq] at h
        subst h
        exact dbrefExtra?_fields s database extra hextra
      · exact Option.noConfusion h

theorem claim_C8_witness :
    (∃ r, DBRefRecord.new dbrefPdbLine = some r ∧
        (r.database = DBType.PDB → r.i_dbns_beg.isSome = true ∧ r.db_ins_end.isSome = true) ∧
        (r.database ≠ DBType.PDB → r.i_dbns_beg = none ∧ r.db_ins_end = none)) ∧
    (∃ r, DBRefRecord.new dbrefUnpLine = some r ∧
        (r.database = DBType.PDB → r.i_dbns_beg.isSome = true ∧ r.db_ins_end.isSome = true) ∧
        (r.database ≠ DBType.PDB → r.i_dbns_beg = none ∧ r.db_ins_end = none)) := by
  refine ⟨⟨(DBRefRecord.new dbrefPdbLine).get (by decide), by simp, ?_⟩,
          ⟨(DBRefRecord.new dbrefUnpLine).get (by decide), by simp, ?_⟩⟩
  · exact claim_C8_dbref_conditional dbrefPdbLine _ (by simp)
  · exact claim_C8_dbref_conditional dbrefUnpLine _ (by simp)

/-- `atomLine1` truncated right after the mandatory `temp_factor`
columns. -/
def shortAtomLine : Str := atomLine1.take 66

/-- Claim C10: an ATOM/HETATM line long enough for its mandatory fields
(66 characters, through temp_factor[60,66)) but shorter than the full
80-column width decodes successfully whenever the mandatory numeric
fields parse; the trailing `entry[72,76)`, `element[77,80)` and
`charge[78,80)` fields use bounds-checked slicing and come out absent
(`none`, never an error or an empty string): `element` and `charge`
always (their columns end at 80), and `entry` when the line ends before
column 76 or its columns are blank. -/
theorem claim_C10_trailing_fields :
    ∀ s : Str, 66 ≤ s.length → s.length < 80 →
      (intFromStr? (-32768) 32767 (trimStr (seg s 22 26))).isSome = true →
      (floatFromStr? (trimStr (seg s 30 38))).isSome = true →
      (floatFromStr? (trimStr (seg s 38 46))).isSome = true →
      (floatFromStr? (trimStr (seg s 46 54))).isSome = true →
      (floatFromStr? (trimStr (seg s 54 60))).isSome = true →
      (floatFromStr? (trimStr (seg s 60 66))).isSome = true →
      ∃ r, AtomRecord.new s = some r ∧ r.element = none ∧ r.charge = none ∧
        (s.length < 76 → r.entry = none) ∧
        (trimStr (seg s 72 76) = [] → r.entry = none) := by
  intro s h66 h80 h1 h2 h3 h4 h5 h6
  obtain ⟨res_seq, e1⟩ := Option.isSome_iff_exists.mp h1
  obtain ⟨x, e2⟩ := Option.isSome_iff_exists.mp h2
  obtain ⟨y, e3⟩ := Option.isSome_iff_exists.mp h3
  obtain ⟨z, e4⟩ := Option.isSome_iff_exists.mp h4
  obtain ⟨occ, e5⟩ := Option.isSome_iff_exists.mp h5
  obtain ⟨tf, e6⟩ := Option.isSome_iff_exists.mp h6
  have hel : slice? s 77 80 = none := by
    unfold slice?
    rw [if_neg (by omega)]
  have hch : slice? s 78 80 = none := by
    unfold slice?
    rw [if_neg (by omega)]
  refine ⟨{ serial := decodeSerial (seg s 6 11), name := trimStr (seg s 12 16),
            alt_loc := parseChar? (trimStr (seg s 16 17)), res_name := trimStr (seg s 17 20),
            chain_id := parseChar? (trimStr (seg s 21 22)), res_seq := res_seq,
            i_code := parseChar? (trimStr (seg s 26 27)), x := x, y := y, z := z,
            occupancy := occ, temp_factor := tf,
            entry := ((slice? s 72 76).map trimStr).filter (fun t => !t.isEmpty),
            element := ((slice? s 77 80).map trimStr).filter (fun t => !t.isEmpty),
            charge := ((slice? s 78 80).map trimStr).filter (fun t => !t.isEmpty) },
         ?_, ?_, ?_, ?_, ?_⟩
  · unfold AtomRecord.new
    rw [if_neg (by omega), e1, e2, e3, e4, e5, e6]
  · show ((slice? s 77 80).map trimStr).filter (fun t => !t.isEmpty) = none
    rw [hel]
    rfl
  · show ((slice? s 78 80).map trimStr).filter (fun t => !t.isEmpty) = none
    rw [hch]
    rfl
  · intro h76
    show ((slice? s 72 76).map trimStr).filter (fun t => !t.isEmpty) = none
    have hen : slice? s 72 76 = none := by
      unfold slice?
      rw [if_neg (by omega)]
    rw [hen]
    rfl
  · intro hblank
    show ((slice? s 72 76).map trimStr).filter (fun t => !t.isEmpty) = none
    by_cases h76 : 76 ≤ s.length
    · have hen : slice? s 72 76 = some (seg s 72 76) := by
        unfold slice? seg
        rw [if_pos (by omega)]
      rw [hen]
      simp [Option.filter, hblank]
    · have hen : slice? s 72 76 = none := by
        unfold slice?
        rw [if_neg (by omega)]
      rw [hen]
      rfl

theorem claim_C10_witness :
    ∃ r, AtomRecord.new shortAtomLine = some r ∧ r.element = none ∧ r.charge = none ∧
      (shortAtomLine.length < 76 → r.entry = none) ∧
      (trimStr (seg shortAtomLine 72 76) = [] → r.entry = none) :=
  claim_C10_trailing_fields shortAtomLine (by decide) (by decide) (by decide) (by decide)
    (by decide) (by decide) (by decide) (by decide)
